import Mathlib

/-!
# Shallow embedding of the CueMeet client (`src/index.ts`, `src/utils/errors.ts`)

This file embeds the request/validation/error-normalization pipeline of the
CueMeet TypeScript client and proves or refutes the frozen claims about it.

Modelling conventions:
* JS `Error` values are the inductive `JSError`: `plainError` is a bare
  `new Error(msg)`; `cueMeetError msg status code` is a `CueMeetError`
  (the subclasses `ValidationError` etc. are `CueMeetError`s with fixed
  status/code, exactly as their constructors set them; the `details`
  argument is never inspected by the client and is omitted).
* A JS string is a Lean `String`; `!s` (falsiness) on a string argument is
  `s = ""` (a missing/`undefined` required string field is falsy exactly like
  the empty string, so both are modelled by `""`).
* Each operation performs at most one HTTP call.  The outcome the transport
  would produce for that call is an explicit argument (`TransportResult`),
  and every operation returns, next to its `Except` outcome, the list of
  requests it actually dispatched, so "no network call is made" is
  `requests = []`.
* The axios response interceptor (`index.ts` constructor) converts every
  `AxiosError` into a `CueMeetError` before any `catch` block of an
  operation runs; `interceptError` is that conversion.
-/

/-- A JSON-like value, used for request bodies and (generically) response
data. -/
inductive Jval where
  | str : String → Jval
  | num : Int → Jval
  | bool : Bool → Jval
  | null : Jval
  | arr : List Jval → Jval
  | obj : List (String × Jval) → Jval

/-- Runtime JS errors thrown by the client.
`plainError m` is `new Error(m)`;
`cueMeetError m status code` is `new CueMeetError(m, status, code)`
(`errors.ts` lines 1–12).  `instanceof CueMeetError` holds exactly for the
`cueMeetError` constructor. -/
inductive JSError where
  | plainError (message : String)
  | cueMeetError (message : String) (status : Option Nat) (code : Option String)
deriving DecidableEq, Repr

/-- `new ValidationError(m)` (`errors.ts` lines 14–20): a `CueMeetError`
with status 400 and code `VALIDATION_ERROR`. -/
def mkValidationError (message : String) : JSError :=
  .cueMeetError message (some 400) (some "VALIDATION_ERROR")

/-- The message carried by a JS error (`error.message`). -/
def JSError.message : JSError → String
  | .plainError m => m
  | .cueMeetError m _ _ => m

/-- `error instanceof CueMeetError`. -/
def JSError.isCueMeet : JSError → Bool
  | .plainError _ => false
  | .cueMeetError _ _ _ => true

inductive HttpVerb where
  | get | post | delete
deriving DecidableEq, Repr

/-- One HTTP request as the client hands it to axios: verb, path relative to
the configured base URL, default headers, optional JSON body, query
parameters. -/
structure Request where
  verb : HttpVerb
  path : String
  headers : List (String × String)
  body : Option Jval
  query : List (String × String)

/-- Default headers configured on the axios instance
(`index.ts` lines 74–80). -/
def defaultHeaders : List (String × String) :=
  [("Content-Type", "application/json")]

/-- What the transport does with the one request an operation dispatches.
`success status data` is a resolved response (axios resolves exactly the
2xx range under its default `validateStatus`);
`errorWithResponse status dataMessage message` is an `AxiosError` carrying a
server response whose body's `message` field is `dataMessage`
(`none` when the body has no string `message`) and whose generic axios
message is `message`;
`errorNoResponse message` is an `AxiosError` with a request but no response
(network failure / timeout);
`errorOther e` is any non-axios throw, passed through the interceptor
unchanged. -/
inductive TransportResult (α : Type) where
  | success (status : Nat) (data : α)
  | errorWithResponse (status : Nat) (dataMessage : Option String) (message : String)
  | errorNoResponse (message : String)
  | errorOther (e : JSError)

/-- The response interceptor (`index.ts` lines 83–93): successful responses
pass through; an `AxiosError` becomes
`new CueMeetError(error.response?.data?.message || error.message,
error.response?.status)`; anything else is rethrown.  The `||` is JS
falsy-choice: an empty server message falls back to the axios message. -/
def interceptError {α : Type} : TransportResult α → Except JSError (Nat × α)
  | .success status data => .ok (status, data)
  | .errorWithResponse status dataMessage message =>
      .error (.cueMeetError
        (match dataMessage with
          | some m => if m = "" then message else m
          | none => message)
        (some status) none)
  | .errorNoResponse message => .error (.cueMeetError message none none)
  | .errorOther e => .error e

/-! ## JS string primitives used by base-URL normalization -/

/-- JS `s.endsWith('/')`. -/
def jsEndsWithSlash (s : String) : Bool :=
  s.data.getLast? = some '/'

/-- JS `s.slice(0, -1)`: the string without its last code unit. -/
def jsDropLast (s : String) : String :=
  ⟨s.data.dropLast⟩

/-- Base-URL normalization shared by the constructor (`index.ts` lines
68–71) and `setBaseUrl` (lines 281–284): remove one trailing slash if
present, then append `/api/v1`. -/
def normalizeBaseUrl (s : String) : String :=
  if jsEndsWithSlash s then jsDropLast s ++ "/api/v1" else s ++ "/api/v1"

/-- The portion of a stored base URL preceding the fixed 7-character
`/api/v1` suffix. -/
def beforeApiSuffix (s : String) : String :=
  ⟨s.data.take (s.data.length - 7)⟩

/-- `setBaseUrl` (`index.ts` lines 276–286): rejects the empty string, else
stores the normalized URL (the stored `baseUrl` is the value returned here;
nothing else in the class assigns `this.baseUrl` except the constructor,
which applies the same normalization). -/
def setBaseUrl (s : String) : Except JSError String :=
  if s = "" then .error (.plainError "baseUrl cannot be empty")
  else .ok (normalizeBaseUrl s)

/-- Constructor base-URL handling (`index.ts` lines 63–71): same
normalization, different message on the empty input. -/
def initBaseUrl (s : String) : Except JSError String :=
  if s = "" then
    .error (.plainError "baseUrl is required for CueMeet client initialization")
  else .ok (normalizeBaseUrl s)

/-! ## Input data and its JSON encodings -/

structure UserData where
  email : String
  name : String
deriving DecidableEq, Repr

structure ApiKeyData where
  userId : String
  name : String
  expiresAt : Option String := none
  permissions : Option (List String) := none
deriving DecidableEq, Repr

inductive RecordingMode where
  | SPEAKER_VIEW | GALLERY_VIEW | AUDIO_ONLY
deriving DecidableEq, Repr

def RecordingMode.toStr : RecordingMode → String
  | .SPEAKER_VIEW => "SPEAKER_VIEW"
  | .GALLERY_VIEW => "GALLERY_VIEW"
  | .AUDIO_ONLY => "AUDIO_ONLY"

structure CreateBotRequest where
  name : String
  meetingUrl : String
  title : Option String := none
  recordingMode : Option RecordingMode := none
  joinAt : Option String := none
  leaveAt : Option String := none
  metadata : Option (List (String × Jval)) := none

structure TranscriptQueryParams where
  page : Option Nat := none
  limit : Option Nat := none
deriving DecidableEq, Repr

/-- A present optional field serialized into a JSON object; an absent one
omitted, as `JSON.stringify` does with `undefined` fields. -/
def optField (key : String) (v : Option Jval) : List (String × Jval) :=
  match v with
  | some j => [(key, j)]
  | none => []

def encodeUserData (u : UserData) : Jval :=
  .obj [("email", .str u.email), ("name", .str u.name)]

def encodeApiKeyData (k : ApiKeyData) : Jval :=
  .obj ([("userId", .str k.userId), ("name", .str k.name)]
    ++ optField "expiresAt" (k.expiresAt.map .str)
    ++ optField "permissions" (k.permissions.map (fun ps => .arr (ps.map .str))))

def encodeCreateBotRequest (b : CreateBotRequest) : Jval :=
  .obj ([("name", .str b.name), ("meetingUrl", .str b.meetingUrl)]
    ++ optField "title" (b.title.map .str)
    ++ optField "recordingMode" (b.recordingMode.map (fun m => .str m.toStr))
    ++ optField "joinAt" (b.joinAt.map .str)
    ++ optField "leaveAt" (b.leaveAt.map .str)
    ++ optField "metadata" (b.metadata.map .obj))

/-- Axios per-request params serialization for transcript pagination: present
fields become query parameters, an absent `params` object contributes
nothing. -/
def encodeTranscriptParams (p : Option TranscriptQueryParams) : List (String × String) :=
  match p with
  | none => []
  | some q =>
      (match q.page with | some n => [("page", toString n)] | none => [])
      ++ (match q.limit with | some n => [("limit", toString n)] | none => [])

/-! ## Validators (`index.ts` lines 310–335) -/

/-- JS `s.trim()`, modelled on the character list: strip whitespace from
both ends. -/
def jsTrim (s : String) : String :=
  ⟨((s.data.dropWhile Char.isWhitespace).reverse.dropWhile Char.isWhitespace).reverse⟩

/-- `_validateApiKey` (`index.ts` lines 310–314): rejects a missing, empty
or whitespace-only key with a `ValidationError`.  (`typeof apiKey !==
'string'` cannot fail in the typed model.) -/
def validateApiKey (apiKey : String) : Except JSError Unit :=
  if apiKey = "" || jsTrim apiKey = "" then
    .error (mkValidationError "API key is required and must be a non-empty string")
  else .ok ()

/-- Split a character list at the first occurrence of `://`, returning the
part before it and the part after it. -/
def splitScheme : List Char → Option (List Char × List Char)
  | [] => none
  | ':' :: '/' :: '/' :: rest => some ([], rest)
  | c :: rest =>
      match splitScheme rest with
      | some (scheme, r) => some (c :: scheme, r)
      | none => none

/-- Modelled from the platform, not from repository code:
`_validateMeetingUrl` calls the host's WHATWG parser (`new URL(url)`) to
test well-formedness.  Following the spec's wording — a "well-formed
absolute URL" — a URL is accepted when it splits as `scheme://rest` with a
nonempty alphabetic scheme and nonempty remainder; this is the precision
the claims need. -/
def isAbsoluteUrl (s : String) : Bool :=
  match splitScheme s.data with
  | some (scheme, rest) => !scheme.isEmpty && scheme.all (fun c => c.isAlpha) && !rest.isEmpty
  | none => false

/-- `_validateMeetingUrl` (`index.ts` lines 316–326). -/
def validateMeetingUrl (url : String) : Except JSError Unit :=
  if url = "" || jsTrim url = "" then
    .error (mkValidationError "Meeting URL is required and must be a non-empty string")
  else if isAbsoluteUrl url then .ok ()
  else .error (mkValidationError "Invalid meeting URL format")

/-- `_validateUserData` (`index.ts` lines 328–335).  Note: no operation of
the client ever invokes this function; it is embedded because the claims
mention its `@` check (JS `email.includes('@')` is containment of `'@'` in
the character list). -/
def validateUserData (userData : UserData) : Except JSError Unit :=
  if userData.email = "" || !(userData.email.data.contains '@') then
    .error (mkValidationError "Valid email is required")
  else if userData.name = "" || jsTrim userData.name = "" then
    .error (mkValidationError "Name is required and must be a non-empty string")
  else .ok ()

/-- `_handleError` (`index.ts` lines 295–308), used only by `revokeApiKey`.
Every error reaching a `catch` block has passed the response interceptor,
which converts each `AxiosError` into a `CueMeetError`; hence
`axios.isAxiosError(error)` is `false` in `_handleError` and its two axios
branches are unreachable — only the generic branch
building a plain Error from the context message, a colon and the original
error message is live, and it is what is
modelled. -/
def handleError (error : JSError) (message : String) : JSError :=
  .plainError (message ++ ": " ++ error.message)

/-! ## Operations -/

/-- `createUser` (`index.ts` lines 101–116).  In the source the two field
checks sit inside the `try`, but a thrown `CueMeetError` is rethrown
unchanged by the `catch` (`instanceof` test), so checks-then-dispatch is
observationally identical. -/
def createUser {α : Type} (userData : UserData) (transport : TransportResult α) :
    Except JSError α × List Request :=
  if userData.email = "" then
    (.error (.cueMeetError "email is required for user creation" (some 400) none), [])
  else if userData.name = "" then
    (.error (.cueMeetError "name is required for user creation" (some 400) none), [])
  else
    let req : Request :=
      { verb := .post, path := "/auth/register", headers := defaultHeaders,
        body := some (encodeUserData userData), query := [] }
    match interceptError transport with
    | .ok (_, d) => (.ok d, [req])
    | .error e =>
        if e.isCueMeet then (.error e, [req])
        else (.error (.cueMeetError "Failed to create user" (some 500) none), [req])

/-- `createApiKey` (`index.ts` lines 123–141). -/
def createApiKey {α : Type} (keyData : ApiKeyData) (transport : TransportResult α) :
    Except JSError α × List Request :=
  if keyData.userId = "" then
    (.error (.cueMeetError "userId is required for API key creation" (some 400) none), [])
  else if keyData.name = "" then
    (.error (.cueMeetError "name is required for API key creation" (some 400) none), [])
  else if keyData.name.length > 100 then
    (.error (.cueMeetError "name must not exceed 100 characters" (some 400) none), [])
  else
    let req : Request :=
      { verb := .post, path := "/api-keys", headers := defaultHeaders,
        body := some (encodeApiKeyData keyData), query := [] }
    match interceptError transport with
    | .ok (_, d) => (.ok d, [req])
    | .error e =>
        if e.isCueMeet then (.error e, [req])
        else (.error (.cueMeetError "Failed to create API key" (some 500) none), [req])

/-- `listApiKeys` (`index.ts` lines 148–160). -/
def listApiKeys {α : Type} (userId : String) (transport : TransportResult α) :
    Except JSError α × List Request :=
  if userId = "" then
    (.error (.cueMeetError "userId is required to list API keys" (some 400) none), [])
  else
    let req : Request :=
      { verb := .post, path := "/api-keys/list", headers := defaultHeaders,
        body := some (.obj [("userId", .str userId)]), query := [] }
    match interceptError transport with
    | .ok (_, d) => (.ok d, [req])
    | .error e =>
        if e.isCueMeet then (.error e, [req])
        else (.error (.cueMeetError "Failed to list API keys" (some 500) none), [req])

/-- `revokeApiKey` (`index.ts` lines 167–178).  The missing-`keyId` check
throws a plain `Error`, and the `catch` routes every failure of the request
through `_handleError` — there is no `instanceof CueMeetError` passthrough
here. -/
def revokeApiKey {α : Type} (keyId : String) (transport : TransportResult α) :
    Except JSError α × List Request :=
  if keyId = "" then
    (.error (.plainError "keyId is required to revoke an API key"), [])
  else
    let req : Request :=
      { verb := .delete, path := "/api-keys/" ++ keyId, headers := defaultHeaders,
        body := none, query := [] }
    match interceptError transport with
    | .ok (_, d) => (.ok d, [req])
    | .error e => (.error (handleError e ("Failed to revoke API key: " ++ keyId)), [req])

/-- `createBot` (`index.ts` lines 186–203).  The `apiKey` parameter is
accepted but never used: it is neither validated nor attached to the
request. -/
def createBot {α : Type} (apiKey : String) (botData : CreateBotRequest)
    (transport : TransportResult α) : Except JSError α × List Request :=
  if botData.name = "" then
    (.error (.cueMeetError "name is required for bot creation" (some 400) none), [])
  else if botData.meetingUrl = "" then
    (.error (.cueMeetError "meetingUrl is required for bot creation" (some 400) none), [])
  else
    match validateMeetingUrl botData.meetingUrl with
    | .error e => (.error e, [])
    | .ok _ =>
      let req : Request :=
        { verb := .post, path := "/bots", headers := defaultHeaders,
          body := some (encodeCreateBotRequest botData), query := [] }
      match interceptError transport with
      | .ok (_, d) => (.ok d, [req])
      | .error e =>
          if e.isCueMeet then (.error e, [req])
          else (.error (.cueMeetError "Failed to create bot" (some 500) none), [req])

/-- `retrieveBot` (`index.ts` lines 211–225).  The key is validated by
`_validateApiKey` but never attached to the request. -/
def retrieveBot {α : Type} (apiKey : String) (botId : String)
    (transport : TransportResult α) : Except JSError α × List Request :=
  match validateApiKey apiKey with
  | .error e => (.error e, [])
  | .ok _ =>
    if botId = "" then
      (.error (.cueMeetError "botId is required to retrieve bot" (some 400) none), [])
    else
      let req : Request :=
        { verb := .get, path := "/bots/" ++ botId, headers := defaultHeaders,
          body := none, query := [] }
      match interceptError transport with
      | .ok (_, d) => (.ok d, [req])
      | .error e =>
          if e.isCueMeet then (.error e, [req])
          else (.error (.cueMeetError "Failed to retrieve bot" (some 500) none), [req])

/-- `removeBotFromCall` (`index.ts` lines 233–247). -/
def removeBotFromCall {α : Type} (apiKey : String) (botId : String)
    (transport : TransportResult α) : Except JSError α × List Request :=
  match validateApiKey apiKey with
  | .error e => (.error e, [])
  | .ok _ =>
    if botId = "" then
      (.error (.cueMeetError "botId is required to remove bot" (some 400) none), [])
    else
      let req : Request :=
        { verb := .delete, path := "/bots/" ++ botId, headers := defaultHeaders,
          body := none, query := [] }
      match interceptError transport with
      | .ok (_, d) => (.ok d, [req])
      | .error e =>
          if e.isCueMeet then (.error e, [req])
          else (.error (.cueMeetError "Failed to remove bot" (some 500) none), [req])

/-- `retrieveTranscript` (`index.ts` lines 256–270). -/
def retrieveTranscript {α : Type} (apiKey : String) (id : String)
    (params : Option TranscriptQueryParams) (transport : TransportResult α) :
    Except JSError α × List Request :=
  match validateApiKey apiKey with
  | .error e => (.error e, [])
  | .ok _ =>
    if id = "" then
      (.error (.cueMeetError "id is required to retrieve transcript" (some 400) none), [])
    else
      let req : Request :=
        { verb := .get, path := "/transcripts/" ++ id, headers := defaultHeaders,
          body := none, query := encodeTranscriptParams params }
      match interceptError transport with
      | .ok (_, d) => (.ok d, [req])
      | .error e =>
          if e.isCueMeet then (.error e, [req])
          else (.error (.cueMeetError "Failed to retrieve transcript" (some 500) none), [req])

/-! ## Helper lemmas -/

theorem data_append (s u : String) : (s ++ u).data = s.data ++ u.data := by
  cases s; cases u; rfl

theorem jsEndsWithSlash_concat_slash (s : String) : jsEndsWithSlash (s ++ "/") = true := by
  simp [jsEndsWithSlash, data_append]

theorem jsDropLast_concat_slash (s : String) : jsDropLast (s ++ "/") = s := by
  cases s with
  | mk l => simp [jsDropLast, data_append]

theorem beforeApiSuffix_append (s : String) :
    beforeApiSuffix (s ++ "/api/v1") = s := by
  cases s with
  | mk l =>
    simp only [beforeApiSuffix, data_append]
    simp

/-! ## Claim C6 — trailing-slash normalization idempotence -/

/-- C6, as stated, is false: `normalize(s) = normalize(s + "/")` fails for
the non-empty input `"https://x.com/"`, which already ends in a slash —
only one trailing slash is stripped, so the right-hand side keeps an extra
slash. -/
theorem claim6_counterexample :
    "https://x.com/" ≠ "" ∧
    normalizeBaseUrl "https://x.com/" ≠ normalizeBaseUrl ("https://x.com/" ++ "/") := by
  constructor
  · decide
  · decide

/-- C6 (amended): trailing-slash normalization agrees on `s` and `s ++ "/"`
for every input `s` that does not already end in a slash; in particular
reconfiguring with `"https://x.com/"` and with `"https://x.com"` both yield
the effective base `"https://x.com/api/v1"`. -/
theorem claim6_slash_idempotence (s : String) (h : jsEndsWithSlash s = false) :
    normalizeBaseUrl s = normalizeBaseUrl (s ++ "/") ∧
    normalizeBaseUrl "https://x.com/" = "https://x.com/api/v1" ∧
    normalizeBaseUrl "https://x.com" = "https://x.com/api/v1" := by
  refine ⟨?_, by decide, by decide⟩
  rw [normalizeBaseUrl, normalizeBaseUrl, h, jsEndsWithSlash_concat_slash,
    jsDropLast_concat_slash]
  simp

/-- Witness for `claim6_slash_idempotence` at `s = "https://x.com"`. -/
theorem claim6_witness :
    jsEndsWithSlash "https://x.com" = false ∧
    (normalizeBaseUrl "https://x.com" = normalizeBaseUrl ("https://x.com" ++ "/") ∧
     normalizeBaseUrl "https://x.com/" = "https://x.com/api/v1" ∧
     normalizeBaseUrl "https://x.com" = "https://x.com/api/v1") :=
  ⟨by decide, claim6_slash_idempotence "https://x.com" (by decide)⟩

/-! ## Claim C7 — stored base-URL invariant -/

/-- C7, as stated, is false: for the non-empty input `"https://x.com//"`
the stored base URL is not the input with `/api/v1` appended (one slash is
stripped first), and the portion preceding the suffix, `"https://x.com/"`,
ends with a trailing slash — only one trailing slash is removed by the
normalization. -/
theorem claim7_counterexample :
    "https://x.com//" ≠ "" ∧
    ¬ (normalizeBaseUrl "https://x.com//" = "https://x.com//" ++ "/api/v1" ∧
       jsEndsWithSlash (beforeApiSuffix (normalizeBaseUrl "https://x.com//")) = false) := by
  refine ⟨by decide, ?_⟩
  intro h
  exact absurd h.2 (by decide)

/-- C7 (amended): after initialization or reconfiguration with any
non-empty input, the stored base URL is the input with one trailing slash
stripped (if present) and the fixed `/api/v1` suffix appended; provided the
input does not end in two consecutive slashes, the portion preceding the
suffix has no trailing slash.  (`setBaseUrl` and the constructor are the
only assignments to the stored URL.) -/
theorem claim7_base_url_invariant (s : String) (h : s ≠ "")
    (h2 : jsEndsWithSlash s = false ∨ jsEndsWithSlash (jsDropLast s) = false) :
    setBaseUrl s = .ok (normalizeBaseUrl s) ∧
    initBaseUrl s = .ok (normalizeBaseUrl s) ∧
    normalizeBaseUrl s = (if jsEndsWithSlash s then jsDropLast s else s) ++ "/api/v1" ∧
    jsEndsWithSlash (beforeApiSuffix (normalizeBaseUrl s)) = false := by
  refine ⟨by simp [setBaseUrl, h], by simp [initBaseUrl, h], ?_, ?_⟩
  · rw [normalizeBaseUrl]
    by_cases hs : jsEndsWithSlash s = true
    · rw [if_pos hs, if_pos hs]
    · rw [if_neg hs, if_neg hs]
  rw [normalizeBaseUrl]
  by_cases hs : jsEndsWithSlash s = true
  · rw [if_pos hs, beforeApiSuffix_append]
    rcases h2 with h2 | h2
    · rw [hs] at h2; cases h2
    · exact h2
  · rw [if_neg hs, beforeApiSuffix_append]
    exact eq_false_of_ne_true hs

/-- Witness for `claim7_base_url_invariant` at `s = "https://x.com/"`. -/
theorem claim7_witness :
    ("https://x.com/" ≠ "" ∧
     (jsEndsWithSlash "https://x.com/" = false ∨
      jsEndsWithSlash (jsDropLast "https://x.com/") = false)) ∧
    (setBaseUrl "https://x.com/" = .ok (normalizeBaseUrl "https://x.com/") ∧
     initBaseUrl "https://x.com/" = .ok (normalizeBaseUrl "https://x.com/") ∧
     normalizeBaseUrl "https://x.com/"
       = (if jsEndsWithSlash "https://x.com/" then jsDropLast "https://x.com/"
          else "https://x.com/") ++ "/api/v1" ∧
     jsEndsWithSlash (beforeApiSuffix (normalizeBaseUrl "https://x.com/")) = false) :=
  ⟨⟨by decide, Or.inr (by decide)⟩,
   claim7_base_url_invariant "https://x.com/" (by decide) (Or.inr (by decide))⟩

/-! ## Claim C1 — typed errors pass through unchanged -/

/-- C1, as stated, is false for `revokeApiKey`: the response interceptor
raises the typed error `CueMeetError("boom", 500)` inside the call, but the
caller receives a different, untyped `Error` — `_handleError` wraps the
typed error instead of re-raising it. -/
theorem claim1_counterexample :
    interceptError (α := Jval)
        (.errorWithResponse 500 (some "boom") "Request failed with status code 500")
      = .error (.cueMeetError "boom" (some 500) none) ∧
    (revokeApiKey (α := Jval) "key-1"
        (.errorWithResponse 500 (some "boom") "Request failed with status code 500")).1
      = .error (.plainError "Failed to revoke API key: key-1: boom") ∧
    JSError.isCueMeet (.plainError "Failed to revoke API key: key-1: boom") = false :=
  ⟨rfl, rfl, rfl⟩

/-- C1 (amended): for `createUser`, `createApiKey`, `listApiKeys`,
`createBot`, `retrieveBot`, `removeBotFromCall` and `retrieveTranscript`,
any already-typed domain error raised earlier in the same call is re-raised
to the caller unchanged; `revokeApiKey` instead routes every failure of the
request phase through `_handleError`, which wraps it — typed or not — into
a plain `Error` whose message prefixes the operation context. -/
theorem claim1_typed_error_passthrough {α : Type} (e : JSError) (he : e.isCueMeet = true)
    (t : TransportResult α) (ht : interceptError t = .error e)
    (u : UserData) (hu1 : u.email ≠ "") (hu2 : u.name ≠ "")
    (k : ApiKeyData) (hk1 : k.userId ≠ "") (hk2 : k.name ≠ "") (hk3 : ¬ k.name.length > 100)
    (uid : String) (huid : uid ≠ "")
    (key : String) (hkey : validateApiKey key = .ok ())
    (b : CreateBotRequest) (hb1 : b.name ≠ "") (hb2 : b.meetingUrl ≠ "")
    (hb3 : validateMeetingUrl b.meetingUrl = .ok ())
    (bid : String) (hbid : bid ≠ "") (tid : String) (htid : tid ≠ "")
    (p : Option TranscriptQueryParams) (kid : String) (hkid : kid ≠ "") :
    (createUser u t).1 = .error e ∧
    (createApiKey k t).1 = .error e ∧
    (listApiKeys uid t).1 = .error e ∧
    (createBot key b t).1 = .error e ∧
    (retrieveBot key bid t).1 = .error e ∧
    (removeBotFromCall key bid t).1 = .error e ∧
    (retrieveTranscript key tid p t).1 = .error e ∧
    (revokeApiKey kid t).1
      = .error (.plainError (("Failed to revoke API key: " ++ kid) ++ ": " ++ e.message)) := by
  refine ⟨?_, ?_, ?_, ?_, ?_, ?_, ?_, ?_⟩
  · simp [createUser, hu1, hu2, ht, he]
  · simp [createApiKey, hk1, hk2, hk3, ht, he]
  · simp [listApiKeys, huid, ht, he]
  · simp [createBot, hb1, hb2, hb3, ht, he]
  · simp [retrieveBot, hkey, hbid, ht, he]
  · simp [removeBotFromCall, hkey, hbid, ht, he]
  · simp [retrieveTranscript, hkey, htid, ht, he]
  · simp [revokeApiKey, hkid, ht, handleError]

/-- Witness for `claim1_typed_error_passthrough` with the typed error
`CueMeetError("boom", 404)` produced by the interceptor from a 404 response,
and valid concrete inputs for every operation. -/
theorem claim1_witness :
    (JSError.isCueMeet (.cueMeetError "boom" (some 404) none) = true ∧
     interceptError (α := Jval) (.errorWithResponse 404 (some "boom") "gen")
       = .error (.cueMeetError "boom" (some 404) none) ∧
     validateApiKey "key" = .ok () ∧
     validateMeetingUrl "https://meet.example/abc" = .ok ()) ∧
    ((createUser ⟨"a@b.c", "N"⟩ (.errorWithResponse (α := Jval) 404 (some "boom") "gen")).1
       = .error (.cueMeetError "boom" (some 404) none) ∧
     (createApiKey ⟨"u", "n", none, none⟩ (.errorWithResponse (α := Jval) 404 (some "boom") "gen")).1
       = .error (.cueMeetError "boom" (some 404) none) ∧
     (listApiKeys "u" (.errorWithResponse (α := Jval) 404 (some "boom") "gen")).1
       = .error (.cueMeetError "boom" (some 404) none) ∧
     (createBot "key" ⟨"B", "https://meet.example/abc", none, none, none, none, none⟩
         (.errorWithResponse (α := Jval) 404 (some "boom") "gen")).1
       = .error (.cueMeetError "boom" (some 404) none) ∧
     (retrieveBot "key" "b1" (.errorWithResponse (α := Jval) 404 (some "boom") "gen")).1
       = .error (.cueMeetError "boom" (some 404) none) ∧
     (removeBotFromCall "key" "b1" (.errorWithResponse (α := Jval) 404 (some "boom") "gen")).1
       = .error (.cueMeetError "boom" (some 404) none) ∧
     (retrieveTranscript "key" "t1" none (.errorWithResponse (α := Jval) 404 (some "boom") "gen")).1
       = .error (.cueMeetError "boom" (some 404) none) ∧
     (revokeApiKey "k1" (.errorWithResponse (α := Jval) 404 (some "boom") "gen")).1
       = .error (.plainError (("Failed to revoke API key: " ++ "k1") ++ ": "
           ++ JSError.message (.cueMeetError "boom" (some 404) none)))) :=
  ⟨⟨rfl, rfl, rfl, rfl⟩,
   claim1_typed_error_passthrough (.cueMeetError "boom" (some 404) none) rfl
     (.errorWithResponse 404 (some "boom") "gen") rfl
     ⟨"a@b.c", "N"⟩ (by decide) (by decide)
     ⟨"u", "n", none, none⟩ (by decide) (by decide) (by decide)
     "u" (by decide)
     "key" rfl
     ⟨"B", "https://meet.example/abc", none, none, none, none, none⟩ (by decide) (by decide) rfl
     "b1" (by decide) "t1" (by decide)
     none "k1" (by decide)⟩

/-! ## Claim C2 — server-reported failures become typed errors -/

/-- C2, as stated, is false for `revokeApiKey`: with a server response
present (HTTP 404, body message "not found"), the caller receives a plain
untyped `Error` — not a typed error carrying the 404 status. -/
theorem claim2_counterexample :
    (revokeApiKey (α := Jval) "k"
        (.errorWithResponse 404 (some "not found") "Request failed with status code 404")).1
      = .error (.plainError "Failed to revoke API key: k: not found") ∧
    JSError.isCueMeet (.plainError "Failed to revoke API key: k: not found") = false :=
  ⟨rfl, rfl⟩

/-- C2 (amended): for every operation except `revokeApiKey`, a transport
failure with a server response present yields a typed `CueMeetError` whose
message is the server-reported message when a nonempty one is present
(otherwise the transport's generic message) and whose status equals the
response status; `revokeApiKey` instead surfaces a plain `Error` embedding
that message, with no status attached. -/
theorem claim2_server_error_propagation {α : Type} (st : Nat) (dm : Option String)
    (gm : String) (hdm : ∀ m, dm = some m → m ≠ "")
    (u : UserData) (hu1 : u.email ≠ "") (hu2 : u.name ≠ "")
    (k : ApiKeyData) (hk1 : k.userId ≠ "") (hk2 : k.name ≠ "") (hk3 : ¬ k.name.length > 100)
    (uid : String) (huid : uid ≠ "")
    (key : String) (hkey : validateApiKey key = .ok ())
    (b : CreateBotRequest) (hb1 : b.name ≠ "") (hb2 : b.meetingUrl ≠ "")
    (hb3 : validateMeetingUrl b.meetingUrl = .ok ())
    (bid : String) (hbid : bid ≠ "") (tid : String) (htid : tid ≠ "")
    (p : Option TranscriptQueryParams) (kid : String) (hkid : kid ≠ "") :
    (createUser u (.errorWithResponse (α := α) st dm gm)).1
      = .error (.cueMeetError (dm.getD gm) (some st) none) ∧
    (createApiKey k (.errorWithResponse (α := α) st dm gm)).1
      = .error (.cueMeetError (dm.getD gm) (some st) none) ∧
    (listApiKeys uid (.errorWithResponse (α := α) st dm gm)).1
      = .error (.cueMeetError (dm.getD gm) (some st) none) ∧
    (createBot key b (.errorWithResponse (α := α) st dm gm)).1
      = .error (.cueMeetError (dm.getD gm) (some st) none) ∧
    (retrieveBot key bid (.errorWithResponse (α := α) st dm gm)).1
      = .error (.cueMeetError (dm.getD gm) (some st) none) ∧
    (removeBotFromCall key bid (.errorWithResponse (α := α) st dm gm)).1
      = .error (.cueMeetError (dm.getD gm) (some st) none) ∧
    (retrieveTranscript key tid p (.errorWithResponse (α := α) st dm gm)).1
      = .error (.cueMeetError (dm.getD gm) (some st) none) ∧
    (revokeApiKey kid (.errorWithResponse (α := α) st dm gm)).1
      = .error (.plainError (("Failed to revoke API key: " ++ kid) ++ ": " ++ dm.getD gm)) := by
  have hint : interceptError (.errorWithResponse (α := α) st dm gm)
      = .error (.cueMeetError (dm.getD gm) (some st) none) := by
    cases dm with
    | none => rfl
    | some m => simp [interceptError, hdm m rfl]
  refine ⟨?_, ?_, ?_, ?_, ?_, ?_, ?_, ?_⟩
  · simp [createUser, hu1, hu2, hint, JSError.isCueMeet]
  · simp [createApiKey, hk1, hk2, hk3, hint, JSError.isCueMeet]
  · simp [listApiKeys, huid, hint, JSError.isCueMeet]
  · simp [createBot, hb1, hb2, hb3, hint, JSError.isCueMeet]
  · simp [retrieveBot, hkey, hbid, hint, JSError.isCueMeet]
  · simp [removeBotFromCall, hkey, hbid, hint, JSError.isCueMeet]
  · simp [retrieveTranscript, hkey, htid, hint, JSError.isCueMeet]
  · simp [revokeApiKey, hkid, hint, handleError, JSError.message]

/-- Witness for `claim2_server_error_propagation`, realizing the spec's own
scenario: a mocked 404 whose response body message is "not found" makes
`retrieveBot("key", "missing-id")` reject with a typed error of status 404
whose message is "not found". -/
theorem claim2_witness :
    ((∀ m, (some "not found" : Option String) = some m → m ≠ "") ∧
     validateApiKey "key" = .ok () ∧
     validateMeetingUrl "https://meet.example/abc" = .ok ()) ∧
    (retrieveBot "key" "missing-id"
        (.errorWithResponse (α := Jval) 404 (some "not found")
          "Request failed with status code 404")).1
      = .error (.cueMeetError ((some "not found").getD "Request failed with status code 404")
          (some 404) none) :=
  ⟨⟨fun m hm => by simp at hm; simp [hm.symm], rfl, rfl⟩,
   (claim2_server_error_propagation 404 (some "not found")
     "Request failed with status code 404"
     (fun m hm => by simp at hm; simp [hm.symm])
     ⟨"a@b.c", "N"⟩ (by decide) (by decide)
     ⟨"u", "n", none, none⟩ (by decide) (by decide) (by decide)
     "u" (by decide)
     "key" rfl
     ⟨"B", "https://meet.example/abc", none, none, none, none, none⟩ (by decide) (by decide) rfl
     "missing-id" (by decide) "t1" (by decide)
     none "k1" (by decide)).2.2.2.2.1⟩

/-! ## Claim C3 â validation failures happen before any dispatch -/

/-- C3 (confirmed): for every operation with a required field, invoking the
operation with that field absent/empty yields the documented validation
failure and an empty request list â the dispatcher is never invoked. -/
theorem claim3_validation_blocks_dispatch {a : Type} (t : TransportResult a)
    (u1 : UserData) (hu1 : u1.email = "")
    (u2 : UserData) (hu2e : u2.email ≠ "") (hu2n : u2.name = "")
    (k1 : ApiKeyData) (hk1 : k1.userId = "")
    (k2 : ApiKeyData) (hk2u : k2.userId ≠ "") (hk2n : k2.name = "")
    (key : String) (hkey : validateApiKey key = .ok ())
    (b1 : CreateBotRequest) (hb1 : b1.name = "")
    (b2 : CreateBotRequest) (hb2n : b2.name ≠ "") (hb2u : b2.meetingUrl = "")
    (p : Option TranscriptQueryParams) :
    createUser u1 t
      = (.error (.cueMeetError "email is required for user creation" (some 400) none), []) ∧
    createUser u2 t
      = (.error (.cueMeetError "name is required for user creation" (some 400) none), []) ∧
    createApiKey k1 t
      = (.error (.cueMeetError "userId is required for API key creation" (some 400) none), []) ∧
    createApiKey k2 t
      = (.error (.cueMeetError "name is required for API key creation" (some 400) none), []) ∧
    listApiKeys "" t
      = (.error (.cueMeetError "userId is required to list API keys" (some 400) none), []) ∧
    revokeApiKey "" t
      = (.error (.plainError "keyId is required to revoke an API key"), []) ∧
    createBot key b1 t
      = (.error (.cueMeetError "name is required for bot creation" (some 400) none), []) ∧
    createBot key b2 t
      = (.error (.cueMeetError "meetingUrl is required for bot creation" (some 400) none), []) ∧
    retrieveBot key "" t
      = (.error (.cueMeetError "botId is required to retrieve bot" (some 400) none), []) ∧
    removeBotFromCall key "" t
      = (.error (.cueMeetError "botId is required to remove bot" (some 400) none), []) ∧
    retrieveTranscript key "" p t
      = (.error (.cueMeetError "id is required to retrieve transcript" (some 400) none), []) := by
  refine ⟨?_, ?_, ?_, ?_, ?_, ?_, ?_, ?_, ?_, ?_, ?_⟩
  · simp [createUser, hu1]
  · simp [createUser, hu2e, hu2n]
  · simp [createApiKey, hk1]
  · simp [createApiKey, hk2u, hk2n]
  · simp [listApiKeys]
  · simp [revokeApiKey]
  · simp [createBot, hb1]
  · simp [createBot, hb2n, hb2u]
  · simp [retrieveBot, hkey]
  · simp [removeBotFromCall, hkey]
  · simp [retrieveTranscript, hkey]

/-- Witness for `claim3_validation_blocks_dispatch` at the test suite's own
concrete inputs. -/
theorem claim3_witness :
    (("test@example.com" : String) ≠ "" ∧ ("123" : String) ≠ "" ∧
     validateApiKey "test-api-key" = .ok () ∧ ("Test Bot" : String) ≠ "") ∧
    (createUser (α := Jval) ⟨"", "Test User"⟩ (.success 200 .null)
      = (.error (.cueMeetError "email is required for user creation" (some 400) none), []) ∧
    createUser (α := Jval) ⟨"test@example.com", ""⟩ (.success 200 .null)
      = (.error (.cueMeetError "name is required for user creation" (some 400) none), []) ∧
    createApiKey (α := Jval) ⟨"", "Test API Key", none, none⟩ (.success 200 .null)
      = (.error (.cueMeetError "userId is required for API key creation" (some 400) none), []) ∧
    createApiKey (α := Jval) ⟨"123", "", none, none⟩ (.success 200 .null)
      = (.error (.cueMeetError "name is required for API key creation" (some 400) none), []) ∧
    listApiKeys (α := Jval) "" (.success 200 .null)
      = (.error (.cueMeetError "userId is required to list API keys" (some 400) none), []) ∧
    revokeApiKey (α := Jval) "" (.success 200 .null)
      = (.error (.plainError "keyId is required to revoke an API key"), []) ∧
    createBot (α := Jval) "test-api-key"
        ⟨"", "https://meet.google.com/abc-defg-hij", none, none, none, none, none⟩
        (.success 200 .null)
      = (.error (.cueMeetError "name is required for bot creation" (some 400) none), []) ∧
    createBot (α := Jval) "test-api-key"
        ⟨"Test Bot", "", none, none, none, none, none⟩ (.success 200 .null)
      = (.error (.cueMeetError "meetingUrl is required for bot creation" (some 400) none), []) ∧
    retrieveBot (α := Jval) "test-api-key" "" (.success 200 .null)
      = (.error (.cueMeetError "botId is required to retrieve bot" (some 400) none), []) ∧
    removeBotFromCall (α := Jval) "test-api-key" "" (.success 200 .null)
      = (.error (.cueMeetError "botId is required to remove bot" (some 400) none), []) ∧
    retrieveTranscript (α := Jval) "test-api-key" "" none (.success 200 .null)
      = (.error (.cueMeetError "id is required to retrieve transcript" (some 400) none), [])) :=
  ⟨⟨by decide, by decide, rfl, by decide⟩,
   claim3_validation_blocks_dispatch (.success 200 .null)
     ⟨"", "Test User"⟩ rfl
     ⟨"test@example.com", ""⟩ (by decide) rfl
     ⟨"", "Test API Key", none, none⟩ rfl
     ⟨"123", "", none, none⟩ (by decide) rfl
     "test-api-key" rfl
     ⟨"", "https://meet.google.com/abc-defg-hij", none, none, none, none, none⟩ rfl
     ⟨"Test Bot", "", none, none, none, none, none⟩ (by decide) rfl
     none⟩

/-! ## Claim C4 â validation failures carry kind VALIDATION_ERROR and status 400 -/

/-- C4, as stated, is false: the missing-email failure of `createUser` is a
`CueMeetError` with status 400 but with no code at all (its kind is `none`,
not `VALIDATION_ERROR`), and the missing-`keyId` failure of `revokeApiKey`
is a plain `Error` carrying neither a kind nor a status. -/
theorem claim4_counterexample :
    (createUser (α := Jval) ⟨"", "Test User"⟩ (.success 200 .null)).1
      = .error (.cueMeetError "email is required for user creation" (some 400) none) ∧
    (none : Option String) ≠ some "VALIDATION_ERROR" ∧
    (revokeApiKey (α := Jval) "" (.success 200 .null)).1
      = .error (.plainError "keyId is required to revoke an API key") :=
  ⟨rfl, by decide, rfl⟩

/-- C4 (amended): pre-flight validation failures of the operations other
than `revokeApiKey` are typed `CueMeetError`s with HTTP status 400, but only
those raised by the dedicated validators `_validateApiKey` and
`_validateMeetingUrl` carry kind `VALIDATION_ERROR`; the inline
required-field failures carry no kind (the unclassified base kind), and the
missing-`keyId` failure of `revokeApiKey` is a plain untyped `Error` with
neither status nor kind. -/
theorem claim4_validation_error_kinds {a : Type} (t : TransportResult a)
    (n : String)
    (k : ApiKeyData) (hk1 : k.userId ≠ "") (hk2 : k.name ≠ "") (hk3 : k.name.length > 100)
    (bid : String) (key : String)
    (b : CreateBotRequest) (hb1 : b.name ≠ "") (hb2 : b.meetingUrl ≠ "")
    (hb3 : jsTrim b.meetingUrl ≠ "") (hb4 : isAbsoluteUrl b.meetingUrl = false) :
    (createUser ⟨"", n⟩ t).1
      = .error (.cueMeetError "email is required for user creation" (some 400) none) ∧
    (createApiKey k t).1
      = .error (.cueMeetError "name must not exceed 100 characters" (some 400) none) ∧
    (retrieveBot "" bid t).1
      = .error (.cueMeetError "API key is required and must be a non-empty string"
          (some 400) (some "VALIDATION_ERROR")) ∧
    (createBot key b t).1
      = .error (.cueMeetError "Invalid meeting URL format"
          (some 400) (some "VALIDATION_ERROR")) ∧
    (revokeApiKey "" t).1
      = .error (.plainError "keyId is required to revoke an API key") := by
  refine ⟨?_, ?_, ?_, ?_, ?_⟩
  · simp [createUser]
  · simp [createApiKey, hk1, hk2, hk3]
  · simp [retrieveBot, validateApiKey, mkValidationError]
  · simp [createBot, hb1, hb2, validateMeetingUrl, hb3, hb4, mkValidationError]
  · simp [revokeApiKey]

/-- Witness for `claim4_validation_error_kinds`: an over-length key name
(101 characters), a blank API key, and a malformed meeting URL. -/
theorem claim4_witness :
    (("u1" : String) ≠ "" ∧
     ("aaaaaaaaaaaaaaaaaaaaaaaaaaaaaaaaaaaaaaaaaaaaaaaaaaaaaaaaaaaaaaaaaaaaaaaaaaaaaaaaaaaaaaaaaaaaaaaaaaaaa" : String).length > 100 ∧
     jsTrim "not-a-url" ≠ "" ∧ isAbsoluteUrl "not-a-url" = false) ∧
    ((createUser (α := Jval) ⟨"", "Test User"⟩ (.success 200 .null)).1
      = .error (.cueMeetError "email is required for user creation" (some 400) none) ∧
    (createApiKey (α := Jval) ⟨"u1", "aaaaaaaaaaaaaaaaaaaaaaaaaaaaaaaaaaaaaaaaaaaaaaaaaaaaaaaaaaaaaaaaaaaaaaaaaaaaaaaaaaaaaaaaaaaaaaaaaaaaa", none, none⟩ (.success 200 .null)).1
      = .error (.cueMeetError "name must not exceed 100 characters" (some 400) none) ∧
    (retrieveBot (α := Jval) "" "b1" (.success 200 .null)).1
      = .error (.cueMeetError "API key is required and must be a non-empty string"
          (some 400) (some "VALIDATION_ERROR")) ∧
    (createBot (α := Jval) "test-api-key"
        ⟨"B", "not-a-url", none, none, none, none, none⟩ (.success 200 .null)).1
      = .error (.cueMeetError "Invalid meeting URL format"
          (some 400) (some "VALIDATION_ERROR")) ∧
    (revokeApiKey (α := Jval) "" (.success 200 .null)).1
      = .error (.plainError "keyId is required to revoke an API key")) :=
  ⟨⟨by decide, by decide, by decide, by decide⟩,
   claim4_validation_error_kinds (.success 200 .null) "Test User"
     ⟨"u1", "aaaaaaaaaaaaaaaaaaaaaaaaaaaaaaaaaaaaaaaaaaaaaaaaaaaaaaaaaaaaaaaaaaaaaaaaaaaaaaaaaaaaaaaaaaaaaaaaaaaaa", none, none⟩ (by decide) (by decide) (by decide)
     "b1" "test-api-key"
     ⟨"B", "not-a-url", none, none, none, none, none⟩ (by decide) (by decide)
     (by decide) (by decide)⟩

/-! ## Claim C5 â createUser email validation -/

/-- C5, as stated, is false: `"noatsign"` contains no `@`, yet `createUser`
with that email and a non-empty name dispatches the request and resolves â
no validation error is raised for an email lacking an `@`. -/
theorem claim5_counterexample :
    ("noatsign".data.contains (Char.ofNat 64)) = false ∧
    createUser (α := Jval) ⟨"noatsign", "x"⟩ (.success 201 .null)
      = (.ok .null,
         [{ verb := .post, path := "/auth/register", headers := defaultHeaders,
            body := some (encodeUserData ⟨"noatsign", "x"⟩), query := [] }]) :=
  ⟨rfl, rfl⟩

/-- C5 (amended): `createUser` rejects exactly the empty email and the
empty name; for every input with non-empty email and name the request is
dispatched even when the email contains no `@`.  The `@`-structure check
exists only in `_validateUserData` â which would reject such an email with
a `ValidationError` â but no operation invokes it. -/
theorem claim5_email_check_scope {a : Type} (u : UserData) (t : TransportResult a)
    (h1 : u.email ≠ "") (h2 : u.name ≠ "")
    (h3 : u.email.data.contains (Char.ofNat 64) = false) :
    (createUser u t).2
      = [{ verb := .post, path := "/auth/register", headers := defaultHeaders,
           body := some (encodeUserData u), query := [] }] ∧
    validateUserData u = .error (mkValidationError "Valid email is required") := by
  constructor
  · cases hI : interceptError t with
    | ok v =>
      obtain ⟨st, d⟩ := v
      simp [createUser, h1, h2, hI]
    | error e =>
      by_cases he : e.isCueMeet = true <;> simp [createUser, h1, h2, hI, he]
  · unfold validateUserData
    rw [h3]
    simp [h1]

/-- Witness for `claim5_email_check_scope` at the `@`-free email
`"noatsign"`. -/
theorem claim5_witness :
    (("noatsign" : String) ≠ "" ∧ ("x" : String) ≠ "" ∧
     "noatsign".data.contains (Char.ofNat 64) = false) ∧
    ((createUser (α := Jval) ⟨"noatsign", "x"⟩ (.success 201 .null)).2
      = [{ verb := .post, path := "/auth/register", headers := defaultHeaders,
           body := some (encodeUserData ⟨"noatsign", "x"⟩), query := [] }] ∧
    validateUserData ⟨"noatsign", "x"⟩
      = .error (mkValidationError "Valid email is required")) :=
  ⟨⟨by decide, by decide, by decide⟩,
   claim5_email_check_scope ⟨"noatsign", "x"⟩
     (TransportResult.success 201 Jval.null)
     (by decide) (by decide) (by decide)⟩

/-! ## Claim C8 — 2xx bodies are returned unmodified -/

/-- C8 (confirmed): for every operation, a resolved 2xx response makes the
call return the transport's decoded data value exactly as received — the
result is `d` itself, for an arbitrary data type `α`, which rules out any
schema validation, coercion or modification. -/
theorem claim8_success_passthrough {α : Type} (st : Nat) (d : α)
    (hst : 200 ≤ st ∧ st < 300)
    (u : UserData) (hu1 : u.email ≠ "") (hu2 : u.name ≠ "")
    (k : ApiKeyData) (hk1 : k.userId ≠ "") (hk2 : k.name ≠ "") (hk3 : ¬ k.name.length > 100)
    (uid : String) (huid : uid ≠ "")
    (kid : String) (hkid : kid ≠ "")
    (key : String) (hkey : validateApiKey key = .ok ())
    (b : CreateBotRequest) (hb1 : b.name ≠ "") (hb2 : b.meetingUrl ≠ "")
    (hb3 : validateMeetingUrl b.meetingUrl = .ok ())
    (bid : String) (hbid : bid ≠ "") (tid : String) (htid : tid ≠ "")
    (p : Option TranscriptQueryParams) :
    (createUser u (.success st d)).1 = .ok d ∧
    (createApiKey k (.success st d)).1 = .ok d ∧
    (listApiKeys uid (.success st d)).1 = .ok d ∧
    (revokeApiKey kid (.success st d)).1 = .ok d ∧
    (createBot key b (.success st d)).1 = .ok d ∧
    (retrieveBot key bid (.success st d)).1 = .ok d ∧
    (removeBotFromCall key bid (.success st d)).1 = .ok d ∧
    (retrieveTranscript key tid p (.success st d)).1 = .ok d := by
  refine ⟨?_, ?_, ?_, ?_, ?_, ?_, ?_, ?_⟩
  · simp [createUser, hu1, hu2, interceptError]
  · simp [createApiKey, hk1, hk2, hk3, interceptError]
  · simp [listApiKeys, huid, interceptError]
  · simp [revokeApiKey, hkid, interceptError]
  · simp [createBot, hb1, hb2, hb3, interceptError]
  · simp [retrieveBot, hkey, hbid, interceptError]
  · simp [removeBotFromCall, hkey, hbid, interceptError]
  · simp [retrieveTranscript, hkey, htid, interceptError]

/-- Witness for `claim8_success_passthrough`, realizing the spec's own
scenario: a mocked HTTP 201 with a fixed JSON body for bot creation makes
`createBot` with name "B" and meeting URL "https://meet.example/abc" resolve
to exactly that body. -/
theorem claim8_witness :
    ((200 ≤ 201 ∧ 201 < 300) ∧
     validateApiKey "key" = .ok () ∧
     validateMeetingUrl "https://meet.example/abc" = .ok ()) ∧
    (createBot (α := Jval) "key"
        ⟨"B", "https://meet.example/abc", none, none, none, none, none⟩
        (.success 201 (.obj [("id", .str "789"), ("name", .str "B"),
          ("meetingUrl", .str "https://meet.example/abc"), ("status", .str "PENDING")]))).1
      = .ok (.obj [("id", .str "789"), ("name", .str "B"),
          ("meetingUrl", .str "https://meet.example/abc"), ("status", .str "PENDING")]) :=
  ⟨⟨⟨by decide, by decide⟩, rfl, rfl⟩,
   (claim8_success_passthrough 201
     (Jval.obj [("id", .str "789"), ("name", .str "B"),
       ("meetingUrl", .str "https://meet.example/abc"), ("status", .str "PENDING")])
     ⟨by decide, by decide⟩
     ⟨"a@b.c", "N"⟩ (by decide) (by decide)
     ⟨"u", "n", none, none⟩ (by decide) (by decide) (by decide)
     "u" (by decide)
     "k1" (by decide)
     "key" rfl
     ⟨"B", "https://meet.example/abc", none, none, none, none, none⟩ (by decide) (by decide) rfl
     "b1" (by decide) "t1" (by decide)
     none).2.2.2.2.1⟩

/-! ## Claim C9 — 100-character limit on API key names -/

/-- C9 (confirmed): with non-empty `userId` and non-empty `name`,
`createApiKey` rejects any name longer than 100 characters with the
documented 400 error whose message states the 100-character limit, making
no request; with a name of length at most 100 no validation failure is
raised and exactly one request is dispatched. -/
theorem claim9_name_length_limit {α : Type} (k : ApiKeyData) (t : TransportResult α)
    (h1 : k.userId ≠ "") (h2 : k.name ≠ "") :
    (k.name.length > 100 →
      createApiKey k t
        = (.error (.cueMeetError "name must not exceed 100 characters" (some 400) none), [])) ∧
    (k.name.length ≤ 100 →
      (createApiKey k t).2
        = [{ verb := .post, path := "/api-keys", headers := defaultHeaders,
             body := some (encodeApiKeyData k), query := [] }]) := by
  constructor
  · intro h3
    simp [createApiKey, h1, h2, h3]
  · intro h3
    have h4 : ¬ k.name.length > 100 := by omega
    cases hI : interceptError t with
    | ok v =>
      obtain ⟨st, d⟩ := v
      simp [createApiKey, h1, h2, h4, hI]
    | error e =>
      by_cases he : e.isCueMeet = true <;> simp [createApiKey, h1, h2, h4, hI, he]

/-- Witness for `claim9_name_length_limit` with `userId = "u1"` and a
101-character name. -/
theorem claim9_witness :
    (("u1" : String) ≠ "" ∧
     ("aaaaaaaaaaaaaaaaaaaaaaaaaaaaaaaaaaaaaaaaaaaaaaaaaaaaaaaaaaaaaaaaaaaaaaaaaaaaaaaaaaaaaaaaaaaaaaaaaaaaa" : String) ≠ "") ∧
    ((("aaaaaaaaaaaaaaaaaaaaaaaaaaaaaaaaaaaaaaaaaaaaaaaaaaaaaaaaaaaaaaaaaaaaaaaaaaaaaaaaaaaaaaaaaaaaaaaaaaaaa" : String).length > 100 →
      createApiKey (α := Jval)
          ⟨"u1", "aaaaaaaaaaaaaaaaaaaaaaaaaaaaaaaaaaaaaaaaaaaaaaaaaaaaaaaaaaaaaaaaaaaaaaaaaaaaaaaaaaaaaaaaaaaaaaaaaaaaa", none, none⟩
          (.success 200 .null)
        = (.error (.cueMeetError "name must not exceed 100 characters" (some 400) none), [])) ∧
    (("aaaaaaaaaaaaaaaaaaaaaaaaaaaaaaaaaaaaaaaaaaaaaaaaaaaaaaaaaaaaaaaaaaaaaaaaaaaaaaaaaaaaaaaaaaaaaaaaaaaaa" : String).length ≤ 100 →
      (createApiKey (α := Jval)
          ⟨"u1", "aaaaaaaaaaaaaaaaaaaaaaaaaaaaaaaaaaaaaaaaaaaaaaaaaaaaaaaaaaaaaaaaaaaaaaaaaaaaaaaaaaaaaaaaaaaaaaaaaaaaa", none, none⟩
          (.success 200 .null)).2
        = [{ verb := .post, path := "/api-keys", headers := defaultHeaders,
             body := some (encodeApiKeyData
               ⟨"u1", "aaaaaaaaaaaaaaaaaaaaaaaaaaaaaaaaaaaaaaaaaaaaaaaaaaaaaaaaaaaaaaaaaaaaaaaaaaaaaaaaaaaaaaaaaaaaaaaaaaaaa", none, none⟩),
             query := [] }])) :=
  ⟨⟨by decide, by decide⟩,
   claim9_name_length_limit
     ⟨"u1", "aaaaaaaaaaaaaaaaaaaaaaaaaaaaaaaaaaaaaaaaaaaaaaaaaaaaaaaaaaaaaaaaaaaaaaaaaaaaaaaaaaaaaaaaaaaaaaaaaaaaa", none, none⟩
     (TransportResult.success 200 Jval.null) (by decide) (by decide)⟩

/-! ## Claim C10 — the credential is never attached to the request -/

/-- C10 (confirmed): for any two credential strings that pass the
client-side credential check, the four authenticated operations issue
identical requests — same verb, path, headers, body and query — because
the key is only validated (`retrieveBot`, `removeBotFromCall`,
`retrieveTranscript`) or ignored entirely (`createBot`) and never attached
to the outgoing request. -/
theorem claim10_credential_independence {α : Type} (k1 k2 : String)
    (h1 : validateApiKey k1 = .ok ()) (h2 : validateApiKey k2 = .ok ())
    (b : CreateBotRequest) (bid tid : String) (p : Option TranscriptQueryParams)
    (t : TransportResult α) :
    (createBot k1 b t).2 = (createBot k2 b t).2 ∧
    (createBot k1 b t).1 = (createBot k2 b t).1 ∧
    (retrieveBot k1 bid t).2 = (retrieveBot k2 bid t).2 ∧
    (removeBotFromCall k1 bid t).2 = (removeBotFromCall k2 bid t).2 ∧
    (retrieveTranscript k1 tid p t).2 = (retrieveTranscript k2 tid p t).2 := by
  refine ⟨rfl, rfl, ?_, ?_, ?_⟩
  · simp [retrieveBot, h1, h2]
  · simp [removeBotFromCall, h1, h2]
  · simp [retrieveTranscript, h1, h2]

/-- Witness for `claim10_credential_independence` with two distinct valid
keys. -/
theorem claim10_witness :
    (validateApiKey "key-one" = .ok () ∧ validateApiKey "key-two" = .ok ()) ∧
    ((createBot (α := Jval) "key-one"
        ⟨"B", "https://meet.example/abc", none, none, none, none, none⟩
        (.success 200 .null)).2
      = (createBot (α := Jval) "key-two"
          ⟨"B", "https://meet.example/abc", none, none, none, none, none⟩
          (.success 200 .null)).2 ∧
    (createBot (α := Jval) "key-one"
        ⟨"B", "https://meet.example/abc", none, none, none, none, none⟩
        (.success 200 .null)).1
      = (createBot (α := Jval) "key-two"
          ⟨"B", "https://meet.example/abc", none, none, none, none, none⟩
          (.success 200 .null)).1 ∧
    (retrieveBot (α := Jval) "key-one" "b1" (.success 200 .null)).2
      = (retrieveBot (α := Jval) "key-two" "b1" (.success 200 .null)).2 ∧
    (removeBotFromCall (α := Jval) "key-one" "b1" (.success 200 .null)).2
      = (removeBotFromCall (α := Jval) "key-two" "b1" (.success 200 .null)).2 ∧
    (retrieveTranscript (α := Jval) "key-one" "t1" none (.success 200 .null)).2
      = (retrieveTranscript (α := Jval) "key-two" "t1" none (.success 200 .null)).2) :=
  ⟨⟨rfl, rfl⟩,
   claim10_credential_independence "key-one" "key-two" rfl rfl
     ⟨"B", "https://meet.example/abc", none, none, none, none, none⟩
     "b1" "t1" none (TransportResult.success 200 Jval.null)⟩
